import Mathlib

/-!
Verification development for the Lingua Franca build-and-deploy pipeline.

The repository contains two variants of the pipeline:
* `build-saclay.py` : role-classifying variant (client/server federates,
  staged under role-qualified names, `scp` of both staged files at once);
* `lf-build.py` : `LFBuilder` class (federate-name-qualified staging,
  remote-URL validation at construction time, per-file `scp`).

Python functions are shallowly embedded as pure Lean functions.  The
filesystem is embedded as a list of existing nodes (each node a path given
as its list of components, relative to the project root, plus a directory
flag).  External process spawns are embedded as values of type `Cmd`
collected in traces; the external compiler is a black box described by its
exit code, its captured stderr, and the generated nodes it would add.
-/

namespace LFDeploy

/-- One external process invocation: program name and argument list. -/
structure Cmd where
  prog : String
  args : List String
deriving DecidableEq, Repr

/-- Error taxonomy of the pipeline.  Each constructor corresponds to one
`raise` site of the Python sources; string payloads keep the directory or
diagnostic information interpolated into the Python message.  The final
constructor embeds the `CalledProcessError` that `subprocess.run` with
`check=True` raises on a nonzero exit status when nothing is captured:
its payload is only the command and the return code. -/
inductive BuildError where
  | usageError (msg : String)
  | compileFailed (diag : String)
  | noGeneratedOutput (dir : String)
  | unexpectedFederateCount (count : Nat) (dir : String)
  | classificationError
  | artifactNotFound (dir : String)
  | invalidRemoteAddress (url : String)
  | noFederateElfs
  | buildDirNotFound (dir : String)
  | noElfFilesInBuildDir (dir : String)
  | fileNotFound (path : String)
  | calledProcessError (command : List String) (returncode : Nat)
deriving DecidableEq, Repr

end LFDeploy

deriving instance DecidableEq for Except

namespace LFDeploy

/-! ## Filesystem embedding -/

/-- One existing filesystem node: its path as a list of components
(relative to the project root or another stated base directory) and
whether it is a directory. -/
structure FsNode where
  path : List String
  isDir : Bool
deriving DecidableEq, Repr

/-- Embedding of `Path.exists()` for path `p` against the node list. -/
def existsNode (fs : List FsNode) (p : List String) : Bool :=
  fs.any (fun n => n.path == p)

/-- Does path `d` equal or lie above path `p` (componentwise)? -/
def underDir (d p : List String) : Bool :=
  match d, p with
  | [], _ => true
  | _ :: _, [] => false
  | a :: ds, b :: ps => a == b && underDir ds ps

/-- Path components joined for error messages. -/
def pathStr (p : List String) : String :=
  String.intercalate "/" p

/-- Embedding of `shutil.rmtree`: removes the directory and everything beneath it;
raises when the target does not exist. -/
def rmtree (d : List String) (fs : List FsNode) :
    Except BuildError (List FsNode) :=
  if existsNode fs d then .ok (fs.filter (fun n => !(underDir d n.path)))
  else .error (.fileNotFound (pathStr d))

/-! ## Role classification (`build-saclay.py`, `classify_federates`) -/

/-- Client-indicating substrings tested by `classify_federates`
(line 81 of `build-saclay.py`). -/
def clientTags : List String := ["client", "src", "send"]

/-- Server-indicating substrings tested by `classify_federates`
(line 83 of `build-saclay.py`). -/
def serverTags : List String := ["server", "snk", "recv"]

/-- Does `t` occur as the initial segment of `s`? -/
def subAt (t s : List Char) : Bool :=
  match t, s with
  | [], _ => true
  | _ :: _, [] => false
  | a :: ts, b :: ss => a == b && subAt ts ss

/-- Does `t` occur as a contiguous segment of `s`? -/
def subIn (t s : List Char) : Bool :=
  match s with
  | [] => subAt t []
  | _ :: ss => subAt t s || subIn t ss

/-- Python `name.lower()` for the ASCII directory names involved,
embedded at the character-list level. -/
def lowerChars (s : String) : List Char :=
  s.toList.map Char.toLower

/-- Python `tag in name`: substring containment. -/
def containsTag (name : List Char) (tag : String) : Bool :=
  subIn tag.toList name

/-- Embedding of `any(tag in name for tag in ("client", "src", "send"))` on the
lowercased name. -/
def hasClientTag (name : List Char) : Bool :=
  clientTags.any (fun t => containsTag name t)

/-- Embedding of `any(tag in name for tag in ("server", "snk", "recv"))` on the
lowercased name. -/
def hasServerTag (name : List Char) : Bool :=
  serverTags.any (fun t => containsTag name t)

/-- Result of classification: the client federate and the server federate
(the pair returned by `classify_federates`). -/
structure RoleAssignment where
  client : String
  server : String
deriving DecidableEq, Repr

/-- One iteration of the `for path in federates` loop of
`classify_federates`: the accumulator is the pair
(`mapping.get("client")`, `mapping.get("server")`). -/
def classifyStep (m : Option String × Option String) (path : String) :
    Option String × Option String :=
  let name := lowerChars path
  if hasClientTag name && m.1.isNone then (some path, m.2)
  else if hasServerTag name && m.2.isNone then (m.1, some path)
  else m

/-- Embedding of `classify_federates` (`build-saclay.py` lines 77-93): the token loop,
then the positional fallback over the candidates not yet used as a value
of `mapping`, then the final completeness check (classification error when
fewer than two roles are filled). -/
def classify_federates (federates : List String) :
    Except BuildError RoleAssignment :=
  let m := federates.foldl classifyStep (none, none)
  let remaining := federates.filter
    (fun p => !(decide (m.1 = some p) || decide (m.2 = some p)))
  let step1 : Option String × List String :=
    match m.1, remaining with
    | none, r :: rs => (some r, rs)
    | c, rem => (c, rem)
  let sOpt : Option String :=
    match m.2, step1.2 with
    | none, r :: _ => some r
    | s, _ => s
  match step1.1, sOpt with
  | some c, some s => .ok ⟨c, s⟩
  | _, _ => .error .classificationError

example : classify_federates ["EchoClient", "EchoServer"] =
    .ok ⟨"EchoClient", "EchoServer"⟩ := by decide
example : classify_federates ["EchoServer", "EchoClient"] =
    .ok ⟨"EchoClient", "EchoServer"⟩ := by decide
example : classify_federates ["fed0", "fed1"] = .ok ⟨"fed0", "fed1"⟩ := by
  decide
example : classify_federates ["srcserver", "client"] =
    .ok ⟨"srcserver", "client"⟩ := by decide

/-- C1 (counterexample): with candidates `srcserver` (name holds the server
tag `server`) and `client` (name holds the client tag `client`), listed in
the order `[srcserver, client]`, `classify_federates` assigns `srcserver`
to the client role, because `srcserver` also holds the client tag `src`
and is tested first.  The claimed assignment (client role to `client`,
server role to `srcserver`) therefore fails for this ordering. -/
theorem classify_token_claim_cx :
    hasClientTag (lowerChars "client") = true ∧
    hasServerTag (lowerChars "srcserver") = true ∧
    classify_federates ["srcserver", "client"] =
      .ok ⟨"srcserver", "client"⟩ ∧
    classify_federates ["srcserver", "client"] ≠
      .ok ⟨"client", "srcserver"⟩ :=
  ⟨by decide, by decide, by decide, by decide⟩

/-- C1 (amended): if candidate `a` holds a client tag, candidate `b` holds
a server tag, and `b` holds no client tag, then `classify_federates`
assigns `a` to the client role and `b` to the server role for both
orderings of the two-candidate list. -/
theorem classify_token_roles (a b : String)
    (ha : hasClientTag (lowerChars a) = true)
    (hb : hasServerTag (lowerChars b) = true)
    (hb' : hasClientTag (lowerChars b) = false) :
    classify_federates [a, b] = .ok ⟨a, b⟩ ∧
    classify_federates [b, a] = .ok ⟨a, b⟩ := by
  constructor <;> simp [classify_federates, classifyStep, ha, hb, hb']

/-- C1 (witness): the amended theorem applied to the end-to-end scenario
names `EchoClient` and `EchoServer`. -/
theorem classify_token_roles_witness :
    (hasClientTag (lowerChars "EchoClient") = true ∧
     hasServerTag (lowerChars "EchoServer") = true ∧
     hasClientTag (lowerChars "EchoServer") = false) ∧
    classify_federates ["EchoClient", "EchoServer"] =
      .ok ⟨"EchoClient", "EchoServer"⟩ ∧
    classify_federates ["EchoServer", "EchoClient"] =
      .ok ⟨"EchoClient", "EchoServer"⟩ :=
  ⟨⟨by decide, by decide, by decide⟩,
    classify_token_roles "EchoClient" "EchoServer"
      (by decide) (by decide) (by decide)⟩

/-- C4: two candidates with no recognizable tokens are assigned
positionally in listing order: the first fills the client role, the second
the server role.  Since `classify_federates` is a pure function, the same
input list always yields this same assignment. -/
theorem classify_positional (a b : String)
    (ha1 : hasClientTag (lowerChars a) = false)
    (ha2 : hasServerTag (lowerChars a) = false)
    (hb1 : hasClientTag (lowerChars b) = false)
    (hb2 : hasServerTag (lowerChars b) = false) :
    classify_federates [a, b] = .ok ⟨a, b⟩ := by
  simp [classify_federates, classifyStep, ha1, ha2, hb1, hb2]

/-- C4 (witness): the scenario names `fed0`, `fed1` carry no tokens and
are assigned `fed0` to client and `fed1` to server. -/
theorem classify_positional_witness :
    (hasClientTag (lowerChars "fed0") = false ∧
     hasServerTag (lowerChars "fed0") = false ∧
     hasClientTag (lowerChars "fed1") = false ∧
     hasServerTag (lowerChars "fed1") = false) ∧
    classify_federates ["fed0", "fed1"] = .ok ⟨"fed0", "fed1"⟩ :=
  ⟨⟨by decide, by decide, by decide, by decide⟩,
    classify_positional "fed0" "fed1"
      (by decide) (by decide) (by decide) (by decide)⟩

/-- C5: on any two distinct candidates, `classify_federates` returns
normally: the token heuristic plus the positional fallback always fill
both roles, so the final classification-error branch is unreachable. -/
theorem classify_two_candidates_ok (a b : String) (hab : a ≠ b) :
    ∃ r, classify_federates [a, b] = .ok r := by
  have hba : b ≠ a := fun h => hab h.symm
  by_cases ca : hasClientTag (lowerChars a) <;>
    by_cases sa : hasServerTag (lowerChars a) <;>
      by_cases cb : hasClientTag (lowerChars b) <;>
        by_cases sb : hasServerTag (lowerChars b) <;>
          simp [classify_federates, classifyStep, ca, sa, cb, sb, hab, hba]

/-- C5 (witness): the unreachable-error theorem applied at the concrete
pair `EchoClient`, `EchoServer`. -/
theorem classify_two_candidates_ok_witness :
    ("EchoClient" : String) ≠ "EchoServer" ∧
    ∃ r, classify_federates ["EchoClient", "EchoServer"] = .ok r :=
  ⟨by decide, classify_two_candidates_ok "EchoClient" "EchoServer"
    (by decide)⟩

/-! ## Artifact location (`build-saclay.py`, `resolve_elf`)

A candidate directory is embedded as the list of its regular files, each
given as its path components relative to the candidate directory. -/

/-- The fixed conventional location probed first:
`federate_dir / "build" / "zephyr" / "zephyr.elf"`. -/
def zephyrFixedPath : List String := ["build", "zephyr", "zephyr.elf"]

/-- Does the recursive glob pattern `**/zephyr.elf` match path `p`?  It
does exactly when the final component is `zephyr.elf`. -/
def isZephyrElf (p : List String) : Bool :=
  p.getLast? == some "zephyr.elf"

/-- Embedding of `sorted(federate_dir.glob("**/zephyr.elf"))`: the glob matches sorted
in the lexicographic (componentwise) order `sorted` applies to `pathlib`
paths. -/
def elfMatches (files : List (List String)) : List (List String) :=
  (files.filter isZephyrElf).insertionSort (· ≤ ·)

/-- Embedding of `resolve_elf` (`build-saclay.py` lines 65-74): probe the fixed path;
otherwise take the first sorted recursive-glob match; otherwise raise,
naming `federate_dir / "build"` in the message. -/
def resolve_elf (fedDir : String) (files : List (List String)) :
    Except BuildError (List String) :=
  if zephyrFixedPath ∈ files then .ok zephyrFixedPath
  else
    match elfMatches files with
    | m :: _ => .ok m
    | [] => .error (.artifactNotFound (fedDir ++ "/build"))

example : resolve_elf "EchoClient"
    [["a.txt"], ["build", "zephyr", "zephyr.elf"]] =
    .ok ["build", "zephyr", "zephyr.elf"] := by decide

/-- C2 (counterexample): on a candidate directory with no matching binary,
`resolve_elf` raises an error naming `<candidate>/build`, not the
candidate directory that the recursive search actually covered. -/
theorem resolve_elf_claim_cx :
    resolve_elf "EchoClient" [["a.txt"]] =
      .error (.artifactNotFound "EchoClient/build") ∧
    resolve_elf "EchoClient" [["a.txt"]] ≠
      .error (.artifactNotFound "EchoClient") :=
  ⟨by decide, by decide⟩

/-- C2 (amended): `resolve_elf` returns the fixed path when that file is
present; otherwise, when at least one file named `zephyr.elf` exists, it
returns the lexicographically least such file instead of failing; and when
none exists it fails with an artifact-not-found error naming the
conventional build subdirectory `<candidate>/build` of the directory
searched. -/
theorem resolve_elf_spec (fedDir : String) (files : List (List String)) :
    (zephyrFixedPath ∈ files →
      resolve_elf fedDir files = .ok zephyrFixedPath) ∧
    (zephyrFixedPath ∉ files → ∀ m ∈ files, isZephyrElf m = true →
      ∃ r, resolve_elf fedDir files = .ok r ∧ r ∈ files ∧
        isZephyrElf r = true ∧
        ∀ n ∈ files, isZephyrElf n = true → r ≤ n) ∧
    ((∀ m ∈ files, isZephyrElf m = false) →
      resolve_elf fedDir files =
        .error (.artifactNotFound (fedDir ++ "/build"))) := by
  refine ⟨fun h => by simp [resolve_elf, h], fun h m hm hz => ?_, fun h => ?_⟩
  · have hmem : m ∈ elfMatches files := by
      simp [elfMatches, List.mem_filter, hm, hz]
    match hE : elfMatches files with
    | [] => rw [hE] at hmem; cases hmem
    | r :: rest =>
      refine ⟨r, ?_, ?_, ?_, ?_⟩
      · simp [resolve_elf, h, hE]
      · have : r ∈ elfMatches files := by rw [hE]; exact List.mem_cons_self r rest
        have := (List.mem_insertionSort (α := List String) (· ≤ ·)).mp this
        exact (List.mem_filter.mp this).1
      · have : r ∈ elfMatches files := by rw [hE]; exact List.mem_cons_self r rest
        have := (List.mem_insertionSort (α := List String) (· ≤ ·)).mp this
        exact (List.mem_filter.mp this).2
      · intro n hn hzn
        have hnS : n ∈ elfMatches files := by
          simp [elfMatches, List.mem_filter, hn, hzn]
        have hsorted : List.Sorted (· ≤ ·) (elfMatches files) :=
          List.sorted_insertionSort (· ≤ ·) (files.filter isZephyrElf)
        rw [hE] at hsorted hnS
        rcases List.mem_cons.mp hnS with rfl | hn2
        · exact le_refl n
        · exact List.rel_of_sorted_cons hsorted n hn2
  · have hfix : zephyrFixedPath ∉ files := fun hf => by
      have := h _ hf
      simp [isZephyrElf, zephyrFixedPath] at this
    have hnil : files.filter isZephyrElf = [] := by
      rw [List.filter_eq_nil_iff]
      intro a ha
      simp [h a ha]
    simp [resolve_elf, hfix, elfMatches, hnil]

/-- C2 (witness): the amended theorem applied where the binary sits only
at a non-standard nested depth — the fallback search finds it. -/
theorem resolve_elf_spec_witness :
    (zephyrFixedPath ∉ [[("deep" : String), "zephyr.elf"], ["other.txt"]] ∧
     [("deep" : String), "zephyr.elf"] ∈
       [[("deep" : String), "zephyr.elf"], ["other.txt"]] ∧
     isZephyrElf ["deep", "zephyr.elf"] = true) ∧
    ∃ r, resolve_elf "EchoClient" [["deep", "zephyr.elf"], ["other.txt"]] =
        .ok r ∧
      r ∈ [[("deep" : String), "zephyr.elf"], ["other.txt"]] ∧
      isZephyrElf r = true ∧
      ∀ n ∈ [[("deep" : String), "zephyr.elf"], ["other.txt"]],
        isZephyrElf n = true → r ≤ n :=
  ⟨⟨by decide, by decide, by decide⟩,
    (resolve_elf_spec "EchoClient"
        [["deep", "zephyr.elf"], ["other.txt"]]).2.1
      (by decide) ["deep", "zephyr.elf"] (by decide) (by decide)⟩

/-! ## Federate discovery (`build-saclay.py`, `find_federates`) -/

/-- One entry of `fed_root.iterdir()`: its name and directory flag. -/
structure DirEntry where
  name : String
  isDir : Bool
deriving DecidableEq, Repr

/-- Embedding of `find_federates` (`build-saclay.py` lines 54-62): requires the
generated root `src-gen/<main_name>` to be a directory, sorts its
subdirectories, and requires exactly two of them. -/
def find_federates (fedRootIsDir : Bool) (fedRoot : String)
    (entries : List DirEntry) : Except BuildError (List String) :=
  if !fedRootIsDir then .error (.noGeneratedOutput fedRoot)
  else
    let federates :=
      ((entries.filter (fun e => e.isDir)).map
        (fun e => e.name)).insertionSort (· ≤ ·)
    if federates.length ≠ 2 then
      .error (.unexpectedFederateCount federates.length fedRoot)
    else .ok federates

/-- C3 (amended, `build-saclay.py` side): `find_federates` fails with the
federate-count error, naming the count of subdirectories found and the
root listed, whenever that count differs from two, and never raises that
error when the count is exactly two. -/
theorem find_federates_count (fedRoot : String) (entries : List DirEntry) :
    ((entries.filter (fun e => e.isDir)).length ≠ 2 →
      find_federates true fedRoot entries =
        .error (.unexpectedFederateCount
          (entries.filter (fun e => e.isDir)).length fedRoot)) ∧
    ((entries.filter (fun e => e.isDir)).length = 2 →
      ∃ l, find_federates true fedRoot entries = .ok l) := by
  have hlen :
      (((entries.filter (fun e => e.isDir)).map
        (fun e => e.name)).insertionSort (· ≤ ·)).length =
      (entries.filter (fun e => e.isDir)).length := by
    rw [List.length_insertionSort, List.length_map]
  constructor
  · intro h
    simp only [find_federates, Bool.not_true, hlen]
    simp [h, hlen]
  · intro h
    simp only [find_federates, Bool.not_true]
    simp [hlen, h]

/-- C3 (witness for the amended theorem): three subdirectories trigger the
count error naming count three and the root. -/
theorem find_federates_count_witness :
    (([⟨"fed0", true⟩, ⟨"fed1", true⟩, ⟨"fed2", true⟩] :
        List DirEntry).filter (fun e => e.isDir)).length ≠ 2 ∧
    find_federates true "src-gen/Echo"
        [⟨"fed0", true⟩, ⟨"fed1", true⟩, ⟨"fed2", true⟩] =
      .error (.unexpectedFederateCount 3 "src-gen/Echo") :=
  ⟨by decide,
    (find_federates_count "src-gen/Echo"
      [⟨"fed0", true⟩, ⟨"fed1", true⟩, ⟨"fed2", true⟩]).1 (by decide)⟩

/-! ## Staging, transfer and clean (`build-saclay.py`) -/

/-- A directory as a map from file name to file contents (`β` is the type
of binary contents); writing a file replaces any prior file of that name,
as `shutil.copy2` does. -/
def writeFile {β : Type} (dir : String → Option β) (name : String)
    (content : β) : String → Option β :=
  fun n => if n = name then some content else dir n

/-- Embedding of `stage_binaries` (`build-saclay.py` lines 96-107) on the staging
directory `build/programs`: copies the client binary to `echo_client.elf`,
then the server binary to `echo_server.elf`; the destination names are
fixed literals, independent of the source-file name. -/
def stage_binaries {β : Type} (clientElf serverElf : β)
    (destDir : String → Option β) : String → Option β :=
  writeFile (writeFile destDir "echo_client.elf" clientElf)
    "echo_server.elf" serverElf

/-- Embedding of `scp_binaries` (`build-saclay.py` lines 110-113): spawns a single
`scp` invocation with all staged paths followed by the remote destination;
the destination string is not validated in any way. -/
def scp_binaries (binaries : List String) (remote : String) : List Cmd :=
  [⟨"scp", binaries ++ [remote]⟩]

/-- Embedding of `clear_src_gen` (`build-saclay.py` lines 36-42): removes the entire
`src-gen` root when it exists, otherwise logs a warning and skips. -/
def clear_src_gen (fs : List FsNode) : Except BuildError (List FsNode) :=
  if existsNode fs ["src-gen"] then rmtree ["src-gen"] fs else .ok fs

/-! ## Remote-address validation (`lf-build.py`) -/

/-- Splits a character list at the first occurrence of `c`: the part
before it (which cannot hold `c`) and the part after it. -/
def splitAtFirst (c : Char) : List Char → Option (List Char × List Char)
  | [] => none
  | x :: xs =>
    if x = c then some ([], xs)
    else
      match splitAtFirst c xs with
      | some (pre, post) => some (x :: pre, post)
      | none => none

/-- Embedding of `re.match` of the pattern `^[^@]+@[^:]+:.+$` (`lf-build.py` line 113):
a nonempty run without `@`, the first `@`, a nonempty run without `:`, the
first following `:`, then a nonempty remainder of non-newline characters
(the trailing `$` also accepts one final newline after them). -/
def remoteMatch (url : String) : Bool :=
  match splitAtFirst '@' url.toList with
  | none => false
  | some (user, rest) =>
    !user.isEmpty &&
      (match splitAtFirst ':' rest with
       | none => false
       | some (host, path) =>
         !host.isEmpty &&
           (let body :=
             if path.getLast? == some '\n' then path.dropLast else path
            !body.isEmpty && !body.contains '\n'))

example : remoteMatch "user@host:path" = true := by decide
example : remoteMatch "hailo@hailo-desktop:~/lf" = true := by decide
example : remoteMatch "userhost-path" = false := by decide
example : remoteMatch "user@hostpath" = false := by decide
example : remoteMatch "userhost:path" = false := by decide
example : remoteMatch "@host:path" = false := by decide
example : remoteMatch "user@:path" = false := by decide
example : remoteMatch "user@host:" = false := by decide

/-! ## The `LFBuilder` pipeline (`lf-build.py`) -/

/-- The world an `LFBuilder` run interacts with: facts about the source
file, the constructor arguments, the external compiler black box (exit
code, captured stderr, and the generated nodes it adds on success), and
the starting filesystem (node paths relative to the working directory). -/
structure LFWorld where
  sourcePathStr : String
  sourceSuffix : String
  sourceExists : Bool
  sourceIsFile : Bool
  baseName : String
  remoteUrl : String
  skipSsh : Bool
  lfcExitCode : Nat
  lfcStderr : String
  generated : List FsNode
  fs : List FsNode

/-- Embedding of `LFBuilder._validate_source_file` (lines 92-108). -/
def validate_source_file (w : LFWorld) : Except BuildError Unit :=
  if w.sourceSuffix ≠ ".lf" then
    .error (.usageError ("Invalid file extension: " ++ w.sourceSuffix))
  else if !w.sourceExists then
    .error (.usageError ("Source file not found: " ++ w.sourcePathStr))
  else if !w.sourceIsFile then
    .error (.usageError ("Source path is not a file: " ++ w.sourcePathStr))
  else .ok ()

/-- Embedding of `LFBuilder._validate_remote_url` (lines 110-118). -/
def validate_remote_url (url : String) : Except BuildError Unit :=
  if remoteMatch url then .ok () else .error (.invalidRemoteAddress url)

/-- Embedding of `LFBuilder.__init__` (lines 63-90): validates the source file, then
the remote URL — the latter only when `skip_ssh` is not set. -/
def lfbuilder_init (w : LFWorld) : Except BuildError Unit :=
  match validate_source_file w with
  | .error e => .error e
  | .ok _ =>
    if !w.skipSsh then validate_remote_url w.remoteUrl else .ok ()

/-- The `if dir_path.exists(): shutil.rmtree(dir_path)` pattern for one
entry of `dirs_to_clean`. -/
def removeIfExists (d : List String) (fs : List FsNode) :
    Except BuildError (List FsNode) :=
  if existsNode fs d then rmtree d fs else .ok fs

/-- Embedding of `LFBuilder.clean` (lines 120-131): removes `<base>_build`, then
`src-gen/<base>`, each only when present. -/
def lfbuild_clean (base : String) (fs : List FsNode) :
    Except BuildError (List FsNode) :=
  match removeIfExists [base ++ "_build"] fs with
  | .error e => .error e
  | .ok fs1 => removeIfExists ["src-gen", base] fs1

/-- The filesystem left by a guarded removal (helper characterization). -/
def removeResult (d : List String) (fs : List FsNode) : List FsNode :=
  if existsNode fs d then fs.filter (fun n => !(underDir d n.path)) else fs

/-- A guarded removal never raises: its guard establishes the existence
precondition of `rmtree`. -/
theorem removeIfExists_eq (d : List String) (fs : List FsNode) :
    removeIfExists d fs = .ok (removeResult d fs) := by
  simp only [removeIfExists, rmtree, removeResult]
  split_ifs <;> rfl

/-- Embedding of `LFBuilder.clean` never raises, and its result is the two guarded
removals applied in order. -/
theorem lfbuild_clean_eq (base : String) (fs : List FsNode) :
    lfbuild_clean base fs =
      .ok (removeResult ["src-gen", base]
        (removeResult [base ++ "_build"] fs)) := by
  rw [lfbuild_clean, removeIfExists_eq]
  exact removeIfExists_eq _ _

/-- Immediate children of directory `d` in listing order. -/
def childrenOf (fs : List FsNode) (d : List String) : List FsNode :=
  fs.filter (fun n => n.path.length == d.length + 1 && underDir d n.path)

/-- Embedding of `LFBuilder._find_federate_elfs` (lines 163-194): requires
`src-gen/<base>` to exist, then collects `(federate_name, elf_path)` for
every immediate subdirectory that holds `build/zephyr/zephyr.elf` at the
fixed depth; raises when none is found; it puts no constraint on how many
federates there are. -/
def find_federate_elfs (base : String) (fs : List FsNode) :
    Except BuildError (List (String × List String)) :=
  if !(existsNode fs ["src-gen", base]) then
    .error (.noGeneratedOutput ("src-gen/" ++ base))
  else
    let elfs := (childrenOf fs ["src-gen", base]).filterMap (fun n =>
      if n.isDir &&
          existsNode fs (n.path ++ ["build", "zephyr", "zephyr.elf"]) then
        some (n.path.getLastD "",
          n.path ++ ["build", "zephyr", "zephyr.elf"])
      else none)
    if elfs.isEmpty then .error .noFederateElfs
    else .ok elfs

/-- Embedding of `shutil.copy2` at the node level: the destination node replaces any
prior node at that path; the source node is only read. -/
def copyNode (fs : List FsNode) (dst : List String) : List FsNode :=
  (fs.filter (fun n => n.path ≠ dst)) ++ [⟨dst, false⟩]

/-- Embedding of `Path.mkdir(exist_ok=True)`. -/
def mkdirNode (fs : List FsNode) (d : List String) : List FsNode :=
  if existsNode fs d then fs else fs ++ [⟨d, true⟩]

/-- The compiler invocation `[str(self.lfc_path), str(self.source_file)]`. -/
def lfcCmd (w : LFWorld) : Cmd := ⟨"lfc-dev", [w.sourcePathStr]⟩

/-- Trace of a `build` run: the final filesystem, the raised error if
any, the external commands spawned, and the pipeline stages reached. -/
structure BuildOutcome where
  fs : List FsNode
  err : Option BuildError
  cmds : List Cmd
  steps : List String
deriving Repr

/-- Embedding of `LFBuilder.build` (lines 133-161): spawn the compiler; a nonzero exit
raises a compile-failure error carrying the captured stderr, and nothing
further happens.  On success the compiler has added its generated nodes,
and `_copy_federate_elfs` (lines 196-208) first creates `<base>_build`,
then discovers the federate binaries and copies each one to
`<base>_build/<federate_name>.elf`. -/
def lfbuild_build (w : LFWorld) (fs : List FsNode) : BuildOutcome :=
  if w.lfcExitCode ≠ 0 then
    ⟨fs, some (.compileFailed ("LFC compilation failed:\n" ++ w.lfcStderr)),
      [lfcCmd w], ["compile"]⟩
  else
    let fs1 := fs ++ w.generated
    let fs2 := mkdirNode fs1 [w.baseName ++ "_build"]
    match find_federate_elfs w.baseName fs2 with
    | .error e => ⟨fs2, some e, [lfcCmd w], ["compile", "discover"]⟩
    | .ok elfs =>
      ⟨elfs.foldl
        (fun acc fe => copyNode acc [w.baseName ++ "_build", fe.1 ++ ".elf"])
        fs2,
       none, [lfcCmd w], ["compile", "discover", "copy"]⟩

/-- The glob pattern `*.elf` on a file name. -/
def isElfName (name : String) : Bool := name.endsWith ".elf"

/-- Embedding of `LFBuilder.ssh` (lines 210-253): skipped entirely under `--no-ssh`;
otherwise requires `<base>_build` to exist and to hold at least one
`*.elf` file, then spawns one `scp` per file (the embedding has every
transfer succeed; a failing `scp` would abort the remaining ones). -/
def lfbuild_ssh (w : LFWorld) (fs : List FsNode) :
    Option BuildError × List Cmd :=
  if w.skipSsh then (none, [])
  else if !(existsNode fs [w.baseName ++ "_build"]) then
    (some (.buildDirNotFound (w.baseName ++ "_build")), [])
  else
    let elfFiles := fs.filter (fun n =>
      n.path.length == 2 && underDir [w.baseName ++ "_build"] n.path &&
        !n.isDir && isElfName (n.path.getLastD ""))
    if elfFiles.isEmpty then
      (some (.noElfFilesInBuildDir (w.baseName ++ "_build")), [])
    else (none, elfFiles.map (fun n => ⟨"scp", [pathStr n.path, w.remoteUrl]⟩))

/-- The CLI subcommands of `lf-build.py`. -/
inductive LFCommand where
  | all | clean | build | ssh
deriving DecidableEq, Repr

/-- Result of one `main` run (lines 262-338): process exit code, external
commands spawned, and the filesystem at exit. -/
structure MainResult where
  exitCode : Nat
  cmds : List Cmd
  fs : List FsNode
deriving Repr

/-- Embedding of `main` of `lf-build.py`: constructs the `LFBuilder` (its validations
run before anything else and spawn no process), dispatches the chosen
command, and maps any raised build error to exit code 1. -/
def lfbuild_main (w : LFWorld) (c : LFCommand) : MainResult :=
  match lfbuilder_init w with
  | .error _ => ⟨1, [], w.fs⟩
  | .ok _ =>
    match c with
    | .clean =>
      match lfbuild_clean w.baseName w.fs with
      | .error _ => ⟨1, [], w.fs⟩
      | .ok fs1 => ⟨0, [], fs1⟩
    | .build =>
      let o := lfbuild_build w w.fs
      ⟨if o.err.isSome then 1 else 0, o.cmds, o.fs⟩
    | .ssh =>
      let (e, cs) := lfbuild_ssh w w.fs
      ⟨if e.isSome then 1 else 0, cs, w.fs⟩
    | .all =>
      match lfbuild_clean w.baseName w.fs with
      | .error _ => ⟨1, [], w.fs⟩
      | .ok fs1 =>
        let o := lfbuild_build w fs1
        match o.err with
        | some _ => ⟨1, o.cmds, o.fs⟩
        | none =>
          let (e, cs) := lfbuild_ssh w o.fs
          ⟨if e.isSome then 1 else 0, o.cmds ++ cs, o.fs⟩

/-! ## Remote-validation claims -/

/-- C6 (counterexample): `scp_binaries` of `build-saclay.py` spawns `scp`
with the destination `saclay` even though that destination matches no
user-at-host-colon-path pattern: that variant validates nothing and
rejects nothing before invoking the copy tool. -/
theorem scp_no_validation_cx :
    remoteMatch "saclay" = false ∧
    scp_binaries ["build/programs/echo_client.elf"] "saclay" =
      [⟨"scp", ["build/programs/echo_client.elf", "saclay"]⟩] ∧
    scp_binaries ["build/programs/echo_client.elf"] "saclay" ≠ [] :=
  ⟨by decide, by decide, by decide⟩

/-- C6 (amended): in the `LFBuilder` variant, a destination string that
does not match the user-at-host-colon-path pattern is rejected with the
invalid-remote-address error at construction time (when SSH is not
skipped), so for every command the run exits with code 1 having spawned
zero external processes. -/
theorem lfbuild_rejects_malformed_remote (w : LFWorld) (c : LFCommand)
    (hm : remoteMatch w.remoteUrl = false)
    (hskip : w.skipSsh = false)
    (hsrc : validate_source_file w = .ok ()) :
    lfbuilder_init w = .error (.invalidRemoteAddress w.remoteUrl) ∧
    lfbuild_main w c = ⟨1, [], w.fs⟩ := by
  have hinit : lfbuilder_init w =
      .error (.invalidRemoteAddress w.remoteUrl) := by
    simp [lfbuilder_init, hsrc, hskip, validate_remote_url, hm]
  exact ⟨hinit, by simp [lfbuild_main, hinit]⟩

/-- A malformed-remote `LFBuilder` world: valid `.lf` source, destination
`nohost` (no at sign, no colon), SSH not skipped. -/
def malformedRemoteWorld : LFWorld :=
  ⟨"src/Echo.lf", ".lf", true, true, "Echo", "nohost", false, 0, "", [], []⟩

/-- C6 (witness): the rejection theorem applied to the `all` command with
destination `nohost`. -/
theorem lfbuild_rejects_malformed_remote_witness :
    (remoteMatch "nohost" = false ∧
     malformedRemoteWorld.skipSsh = false ∧
     validate_source_file malformedRemoteWorld = .ok ()) ∧
    lfbuilder_init malformedRemoteWorld =
      .error (.invalidRemoteAddress "nohost") ∧
    lfbuild_main malformedRemoteWorld .all = ⟨1, [], []⟩ :=
  ⟨⟨by decide, by decide, by decide⟩,
    lfbuild_rejects_malformed_remote malformedRemoteWorld .all
      (by decide) (by decide) (by decide)⟩

/-- C10: with the skip-ssh flag set, the remote URL is never consulted by
validation: construction behaves identically for every remote string and
succeeds whenever the source file is valid (a malformed remote raises no
error for any command), and the ssh step returns without error having
spawned nothing. -/
theorem lfbuild_skip_ssh_no_validation (w : LFWorld)
    (hskip : w.skipSsh = true)
    (hsrc : validate_source_file w = .ok ()) :
    (∀ u, lfbuilder_init { w with remoteUrl := u } = lfbuilder_init w) ∧
    lfbuilder_init w = .ok () ∧
    (∀ fs, lfbuild_ssh w fs = (none, [])) ∧
    (lfbuild_main w .clean).exitCode = 0 := by
  have hinit : lfbuilder_init w = .ok () := by
    simp [lfbuilder_init, hsrc, hskip]
  refine ⟨fun u => ?_, hinit, fun fs => by simp [lfbuild_ssh, hskip], ?_⟩
  · have h1 : validate_source_file { w with remoteUrl := u } =
        Except.ok () := hsrc
    simp only [lfbuilder_init, h1, hsrc]
    simp [hskip]
  · rw [lfbuild_main, hinit]
    rw [lfbuild_clean_eq]

/-- A skip-ssh world carrying a malformed remote string. -/
def skipSshWorld : LFWorld :=
  ⟨"src/Echo.lf", ".lf", true, true, "Echo", "nohost", true, 0, "", [], []⟩

/-- C10 (witness): with skip-ssh set, the malformed remote `nohost` is
accepted at construction and the ssh step does nothing. -/
theorem lfbuild_skip_ssh_no_validation_witness :
    (skipSshWorld.skipSsh = true ∧
     validate_source_file skipSshWorld = .ok () ∧
     remoteMatch skipSshWorld.remoteUrl = false) ∧
    lfbuilder_init skipSshWorld = .ok () ∧
    lfbuild_ssh skipSshWorld [] = (none, []) :=
  ⟨⟨by decide, by decide, by decide⟩,
   (lfbuild_skip_ssh_no_validation skipSshWorld
     (by decide) (by decide)).2.1,
   (lfbuild_skip_ssh_no_validation skipSshWorld
     (by decide) (by decide)).2.2.1 []⟩

/-! ## Clean-step claims -/

theorem mem_removeResult_of (d : List String) (fs : List FsNode)
    (n : FsNode) (hn : n ∈ fs) (h : underDir d n.path = false) :
    n ∈ removeResult d fs := by
  unfold removeResult
  split
  · exact List.mem_filter.mpr ⟨hn, by simp [h]⟩
  · exact hn

theorem removeResult_subset (d : List String) (fs : List FsNode) :
    ∀ n ∈ removeResult d fs, n ∈ fs := by
  intro n hn
  unfold removeResult at hn
  split at hn
  · exact (List.mem_filter.mp hn).1
  · exact hn

theorem removeResult_deletes (d : List String) (fs : List FsNode)
    (h : existsNode fs d = true) :
    ∀ n ∈ removeResult d fs, underDir d n.path = false := by
  intro n hn
  unfold removeResult at hn
  rw [if_pos h] at hn
  have h2 := (List.mem_filter.mp hn).2
  simpa using h2

theorem removeResult_noop (d : List String) (fs : List FsNode)
    (h : existsNode fs d = false) : removeResult d fs = fs := by
  unfold removeResult
  rw [if_neg (by simp [h])]

/-- No build-staging directory name `<base>_build` can collide with the
shared generated root `src-gen`. -/
theorem build_dir_ne_srcgen (base : String) :
    (base ++ "_build") ≠ "src-gen" := by
  intro h
  have h2 : base.data ++ "_build".data = "src-gen".data := by
    rw [← String.data_append, h]
  have hb : "_build".data = ['_', 'b', 'u', 'i', 'l', 'd'] := rfl
  have hs : "src-gen".data = ['s', 'r', 'c', '-', 'g', 'e', 'n'] := rfl
  rw [hb, hs] at h2
  have hlen : base.data.length + 6 = 7 := by
    have h3 := congrArg List.length h2
    simpa using h3
  obtain ⟨c, hc⟩ :=
    List.length_eq_one.mp (show base.data.length = 1 by omega)
  rw [hc] at h2
  simp at h2

/-- Filesystem with generated output of two SourceUnits, `Echo` and
`Other`, under the shared `src-gen` root. -/
def twoUnitFs : List FsNode :=
  [⟨["src-gen"], true⟩, ⟨["src-gen", "Echo"], true⟩,
   ⟨["src-gen", "Other"], true⟩,
   ⟨["src-gen", "Other", "zephyr.elf"], false⟩]

/-- C8 (counterexample): `clear_src_gen` of `build-saclay.py` removes the
whole `src-gen` root, so a build of the `Echo` unit also deletes the
generated output of the unrelated `Other` unit. -/
theorem clean_other_units_cx :
    (⟨["src-gen", "Other", "zephyr.elf"], false⟩ : FsNode) ∈ twoUnitFs ∧
    clear_src_gen twoUnitFs = .ok [] :=
  ⟨by decide, by decide⟩

/-- C8 (amended): `LFBuilder.clean` never raises — a safe no-op when the
directories are absent — and deletes only the current SourceUnit
directories: every node outside `<base>_build` and `src-gen/<base>`
survives (so other SourceUnits inside `src-gen` are untouched), nothing
new appears, whichever of the two directories exists is removed with its
contents, and with both absent the filesystem is returned unchanged.
The `build-saclay.py` variant instead deletes the entire shared `src-gen`
root. -/
theorem lfbuild_clean_spec (base : String) (fs : List FsNode) :
    ∃ fs2, lfbuild_clean base fs = .ok fs2 ∧
      (∀ n ∈ fs, underDir [base ++ "_build"] n.path = false →
        underDir ["src-gen", base] n.path = false → n ∈ fs2) ∧
      (∀ n ∈ fs2, n ∈ fs) ∧
      (existsNode fs [base ++ "_build"] = true →
        ∀ n ∈ fs2, underDir [base ++ "_build"] n.path = false) ∧
      (existsNode fs ["src-gen", base] = true →
        ∀ n ∈ fs2, underDir ["src-gen", base] n.path = false) ∧
      (existsNode fs [base ++ "_build"] = false →
        existsNode fs ["src-gen", base] = false → fs2 = fs) := by
  refine ⟨_, lfbuild_clean_eq base fs, ?_, ?_, ?_, ?_, ?_⟩
  · intro n hn h1 h2
    exact mem_removeResult_of _ _ n (mem_removeResult_of _ _ n hn h1) h2
  · intro n hn
    exact removeResult_subset _ _ n (removeResult_subset _ _ n hn)
  · intro hex n hn
    exact removeResult_deletes _ _ hex n (removeResult_subset _ _ n hn)
  · intro hex n hn
    have hu : underDir [base ++ "_build"] ["src-gen", base] = false := by
      simp [underDir, build_dir_ne_srcgen base]
    obtain ⟨m, hm, hmp⟩ := List.any_eq_true.mp hex
    have hmp2 : m.path = ["src-gen", base] := by simpa using hmp
    have hm1 : m ∈ removeResult [base ++ "_build"] fs :=
      mem_removeResult_of _ _ m hm (by rw [hmp2]; exact hu)
    have hex2 :
        existsNode (removeResult [base ++ "_build"] fs)
          ["src-gen", base] = true :=
      List.any_eq_true.mpr ⟨m, hm1, by simp [hmp2]⟩
    exact removeResult_deletes _ _ hex2 n hn
  · intro h1 h2
    rw [removeResult_noop _ _ h1, removeResult_noop _ _ h2]

/-- C8 (witness): the amended theorem applied to a filesystem holding a
foreign SourceUnit `Other`: cleaning `Echo` keeps the `Other` output. -/
theorem lfbuild_clean_spec_witness :
    ((⟨["src-gen", "Other", "zephyr.elf"], false⟩ : FsNode) ∈ twoUnitFs ∧
     underDir ["Echo_build"]
       ["src-gen", "Other", "zephyr.elf"] = false ∧
     underDir ["src-gen", "Echo"]
       ["src-gen", "Other", "zephyr.elf"] = false) ∧
    ∃ fs2, lfbuild_clean "Echo" twoUnitFs = .ok fs2 ∧
      (⟨["src-gen", "Other", "zephyr.elf"], false⟩ : FsNode) ∈ fs2 := by
  refine ⟨⟨by decide, by decide, by decide⟩, ?_⟩
  obtain ⟨fs2, hok, hframe, -⟩ := lfbuild_clean_spec "Echo" twoUnitFs
  exact ⟨fs2, hok, hframe _ (by decide) (by decide) (by decide)⟩

/-! ## Build-pipeline characterizations -/

/-- With a nonzero compiler exit status, `build` stops at the compile
stage. -/
theorem lfbuild_build_compile_fail (w : LFWorld) (fs : List FsNode)
    (hx : w.lfcExitCode ≠ 0) :
    lfbuild_build w fs =
      ⟨fs, some (.compileFailed ("LFC compilation failed:\n" ++ w.lfcStderr)),
        [lfcCmd w], ["compile"]⟩ := by
  rw [lfbuild_build, if_pos hx]

/-- With a zero compiler exit status and failing discovery, `build` stops
at the discover stage. -/
theorem lfbuild_build_find_err (w : LFWorld) (fs : List FsNode)
    (e : BuildError) (hx : w.lfcExitCode = 0)
    (hfind : find_federate_elfs w.baseName
      (mkdirNode (fs ++ w.generated) [w.baseName ++ "_build"]) = .error e) :
    lfbuild_build w fs =
      ⟨mkdirNode (fs ++ w.generated) [w.baseName ++ "_build"], some e,
        [lfcCmd w], ["compile", "discover"]⟩ := by
  rw [lfbuild_build, if_neg (by simp [hx])]
  simp only [hfind]

/-- With a zero compiler exit status and successful discovery, `build`
copies every discovered federate binary into `<base>_build`. -/
theorem lfbuild_build_ok (w : LFWorld) (fs : List FsNode)
    (elfs : List (String × List String)) (hx : w.lfcExitCode = 0)
    (hfind : find_federate_elfs w.baseName
      (mkdirNode (fs ++ w.generated) [w.baseName ++ "_build"]) = .ok elfs) :
    lfbuild_build w fs =
      ⟨elfs.foldl
        (fun acc fe => copyNode acc [w.baseName ++ "_build", fe.1 ++ ".elf"])
        (mkdirNode (fs ++ w.generated) [w.baseName ++ "_build"]),
       none, [lfcCmd w], ["compile", "discover", "copy"]⟩ := by
  rw [lfbuild_build, if_neg (by simp [hx])]
  simp only [hfind]

/-- Every node added by the copy loop of `_copy_federate_elfs` has a path
of the shape `<buildDir>/<federateName>.elf`. -/
theorem copy_fold_paths (bb : String) (elfs : List (String × List String)) :
    ∀ fs : List FsNode,
      ∀ n ∈ elfs.foldl (fun acc fe => copyNode acc [bb, fe.1 ++ ".elf"]) fs,
        n ∈ fs ∨ ∃ fedName, n.path = [bb, fedName ++ ".elf"] := by
  induction elfs with
  | nil => intro fs n hn; exact .inl hn
  | cons fe rest ih =>
    intro fs n hn
    rw [List.foldl_cons] at hn
    rcases ih _ n hn with h | h
    · unfold copyNode at h
      rcases List.mem_append.mp h with h2 | h2
      · exact .inl (List.mem_filter.mp h2).1
      · rcases List.mem_singleton.mp h2 with rfl
        exact .inr ⟨fe.1, rfl⟩
    · exact .inr h

/-! ## The `build-saclay.py` pipeline and the compile-failure claim -/

/-- Embedding of `run` (`build-saclay.py` lines 28-33):
`subprocess.run(command, check=True)` with no `capture_output` — on a
nonzero exit status it raises `CalledProcessError`, whose payload names
only the command and the return code; the stdout and stderr of the tool
go to the terminal and are not captured into the error. -/
def run_checked (command : List String) (exitCode : Nat) :
    Except BuildError Unit :=
  if exitCode ≠ 0 then .error (.calledProcessError command exitCode)
  else .ok ()

/-- The compile step of `build-saclay.py` (`run_lfc` body, line 51, via
`run`, lines 28-33) at the process boundary: the external compiler exits
with `exitCode` having written `_diagnostics` to the uncaptured stderr
stream.  The diagnostics argument records a fact of the world that the
code has no access to: `run` passes no `capture_output`, so the value
cannot flow into the raised error — the result ignores it. -/
def saclay_compile (lfPath : String) (exitCode : Nat)
    (_diagnostics : String) : Except BuildError Unit :=
  run_checked ["lfc-dev", lfPath] exitCode

/-- The world of one `build-saclay.py` run: the source path and its stem,
the scp destination, the compiler black box (whether the binary exists,
its exit status, its terminal diagnostics, and the generated nodes it
adds on success), and the starting filesystem relative to the project
root. -/
structure SaclayWorld where
  lfPath : String
  mainName : String
  remote : String
  lfcIsFile : Bool
  lfcExitCode : Nat
  lfcDiagnostics : String
  generated : List FsNode
  fs : List FsNode

/-- Result of one `build-saclay.py` `main` run: process exit code,
external commands spawned, filesystem at exit, and the pipeline stages
reached. -/
structure SaclayResult where
  exitCode : Nat
  cmds : List Cmd
  fs : List FsNode
  steps : List String
deriving DecidableEq, Repr

/-- The `iterdir()` view of directory `d`: name and directory flag of
each immediate child, in listing order. -/
def dirEntriesOf (fs : List FsNode) (d : List String) : List DirEntry :=
  (childrenOf fs d).map (fun n => ⟨n.path.getLastD "", n.isDir⟩)

/-- The regular files beneath directory `d`, as paths relative to `d`:
the view `resolve_elf` takes of one federate directory. -/
def relFiles (fs : List FsNode) (d : List String) : List (List String) :=
  (fs.filter (fun n => !n.isDir && underDir d n.path &&
    decide (d.length < n.path.length))).map
    (fun n => n.path.drop d.length)

/-- Embedding of `main` of `build-saclay.py` (lines 116-141): the `try`
block runs clean, compile (guarded by the compiler-binary check of
`run_lfc`, lines 46-48), discovery, classification, per-role resolution,
staging and transfer in order; the first raised error is caught at line
139 and mapped to `sys.exit(1)`, so no later stage runs; falling through
the whole block exits 0.  Staging (lines 96-107) creates `build/programs`
with its parent and copies the two binaries to the fixed names; the
transfer is the single `scp` spawn of `scp_binaries` (the embedding has
it succeed). -/
def saclay_main (w : SaclayWorld) : SaclayResult :=
  match clear_src_gen w.fs with
  | .error _ => ⟨1, [], w.fs, ["clean"]⟩
  | .ok fs0 =>
    if !w.lfcIsFile then ⟨1, [], fs0, ["clean", "compile"]⟩
    else
      match saclay_compile w.lfPath w.lfcExitCode w.lfcDiagnostics with
      | .error _ =>
        ⟨1, [⟨"lfc-dev", [w.lfPath]⟩], fs0, ["clean", "compile"]⟩
      | .ok _ =>
        let lfc : Cmd := ⟨"lfc-dev", [w.lfPath]⟩
        let fs1 := fs0 ++ w.generated
        let sgm := ["src-gen", w.mainName]
        let fedRootIsDir := fs1.any (fun n => n.path == sgm && n.isDir)
        match find_federates fedRootIsDir (pathStr sgm)
            (dirEntriesOf fs1 sgm) with
        | .error _ => ⟨1, [lfc], fs1, ["clean", "compile", "discover"]⟩
        | .ok feds =>
          match classify_federates feds with
          | .error _ =>
            ⟨1, [lfc], fs1, ["clean", "compile", "discover", "classify"]⟩
          | .ok roles =>
            match resolve_elf (pathStr (sgm ++ [roles.client]))
                (relFiles fs1 (sgm ++ [roles.client])) with
            | .error _ =>
              ⟨1, [lfc], fs1,
                ["clean", "compile", "discover", "classify", "resolve"]⟩
            | .ok _ =>
              match resolve_elf (pathStr (sgm ++ [roles.server]))
                  (relFiles fs1 (sgm ++ [roles.server])) with
              | .error _ =>
                ⟨1, [lfc], fs1,
                  ["clean", "compile", "discover", "classify", "resolve"]⟩
              | .ok _ =>
                let fs2 := copyNode
                  (copyNode
                    (mkdirNode (mkdirNode fs1 ["build"])
                      ["build", "programs"])
                    ["build", "programs", "echo_client.elf"])
                  ["build", "programs", "echo_server.elf"]
                ⟨0,
                  [lfc] ++ scp_binaries
                    [pathStr ["build", "programs", "echo_client.elf"],
                     pathStr ["build", "programs", "echo_server.elf"]]
                    w.remote,
                  fs2,
                  ["clean", "compile", "discover", "classify", "resolve",
                   "stage", "scp"]⟩

/-- Method `clear_src_gen` never raises: its existence guard establishes
the precondition of `rmtree`, and the result is the guarded removal of
the whole `src-gen` root. -/
theorem clear_src_gen_eq (fs : List FsNode) :
    clear_src_gen fs = .ok (removeResult ["src-gen"] fs) := by
  simp only [clear_src_gen, rmtree, removeResult]
  split_ifs <;> rfl

theorem existsNode_removeResult_false (x d : List String)
    (fs : List FsNode) (h : existsNode fs d = false) :
    existsNode (removeResult x fs) d = false := by
  cases hb : existsNode (removeResult x fs) d
  · rfl
  · obtain ⟨m, hm, hmp⟩ := List.any_eq_true.mp hb
    have h2 : existsNode fs d = true :=
      List.any_eq_true.mpr ⟨m, removeResult_subset x fs m hm, hmp⟩
    rw [h2] at h
    cases h

/-- C9 (counterexample): in `build-saclay.py` the compile step captures
nothing: with the compiler writing `boom` to stderr and exiting 1, the
raised error is the bare called-process error naming only the command and
the status — identical to the error of a run with empty diagnostics, and
not a compile-failed error carrying `boom`. -/
theorem compile_diag_claim_cx :
    saclay_compile "src/Echo.lf" 1 "boom" =
      .error (.calledProcessError ["lfc-dev", "src/Echo.lf"] 1) ∧
    saclay_compile "src/Echo.lf" 1 "boom" =
      saclay_compile "src/Echo.lf" 1 "" ∧
    saclay_compile "src/Echo.lf" 1 "boom" ≠
      .error (.compileFailed "boom") ∧
    saclay_compile "src/Echo.lf" 1 "boom" ≠
      .error (.compileFailed ("LFC compilation failed:\n" ++ "boom")) :=
  ⟨by decide, rfl, by decide, by decide⟩

/-- C9 (amended): when the external compiler exits nonzero, both variants
halt before the discover stage with exit code 1, never create the staging
directory, and spawn only the compiler command.  The `LFBuilder` variant
raises a compile-failed error carrying the captured compiler stderr; the
`build-saclay.py` variant captures nothing — its raised error names only
the command and the exit status and is the same whatever the compiler
wrote as diagnostics. -/
theorem compile_failure_halts (w : LFWorld) (v : SaclayWorld)
    (hx : w.lfcExitCode ≠ 0)
    (hinit : lfbuilder_init w = .ok ())
    (hvx : v.lfcExitCode ≠ 0)
    (hvf : v.lfcIsFile = true) :
    (lfbuild_build w w.fs).err =
      some (.compileFailed ("LFC compilation failed:\n" ++ w.lfcStderr)) ∧
    (lfbuild_build w w.fs).steps = ["compile"] ∧
    (lfbuild_build w w.fs).fs = w.fs ∧
    lfbuild_main w .build = ⟨1, [lfcCmd w], w.fs⟩ ∧
    (existsNode w.fs [w.baseName ++ "_build"] = false →
      existsNode (lfbuild_main w .build).fs
        [w.baseName ++ "_build"] = false) ∧
    saclay_main v = ⟨1, [⟨"lfc-dev", [v.lfPath]⟩],
      removeResult ["src-gen"] v.fs, ["clean", "compile"]⟩ ∧
    saclay_compile v.lfPath v.lfcExitCode v.lfcDiagnostics =
      .error (.calledProcessError ["lfc-dev", v.lfPath] v.lfcExitCode) ∧
    saclay_compile v.lfPath v.lfcExitCode v.lfcDiagnostics =
      saclay_compile v.lfPath v.lfcExitCode "" ∧
    (existsNode v.fs ["build", "programs"] = false →
      existsNode (saclay_main v).fs ["build", "programs"] = false) := by
  have hb := lfbuild_build_compile_fail w w.fs hx
  have hm2 : lfbuild_main w .build = ⟨1, [lfcCmd w], w.fs⟩ := by
    simp [lfbuild_main, hinit, hb]
  have hcc : saclay_compile v.lfPath v.lfcExitCode v.lfcDiagnostics =
      .error (.calledProcessError ["lfc-dev", v.lfPath] v.lfcExitCode) := by
    simp [saclay_compile, run_checked, hvx]
  have hsm : saclay_main v = ⟨1, [⟨"lfc-dev", [v.lfPath]⟩],
      removeResult ["src-gen"] v.fs, ["clean", "compile"]⟩ := by
    simp [saclay_main, clear_src_gen_eq, hvf, hcc]
  refine ⟨by rw [hb], by rw [hb], by rw [hb], hm2,
    fun h => by simpa [hm2] using h, hsm, hcc, rfl, fun h => ?_⟩
  rw [hsm]
  exact existsNode_removeResult_false _ _ _ h

/-- A world whose compiler run fails with captured stderr `boom`. -/
def compileFailWorld : LFWorld :=
  ⟨"src/Echo.lf", ".lf", true, true, "Echo", "hailo@hailo-desktop:~/lf",
    false, 1, "boom", [], []⟩

/-- A `build-saclay.py` world whose compiler exits 1, writing `boom` to
the uncaptured stderr stream. -/
def saclayFailWorld : SaclayWorld :=
  ⟨"src/Echo.lf", "Echo", "zungel@saclay.iot-lab.info:", true, 1, "boom",
    [], []⟩

/-- C9 (witness): the compile-failure theorem applied to concrete failing
worlds of both variants. -/
theorem compile_failure_halts_witness :
    (compileFailWorld.lfcExitCode ≠ 0 ∧
     lfbuilder_init compileFailWorld = .ok () ∧
     saclayFailWorld.lfcExitCode ≠ 0 ∧
     saclayFailWorld.lfcIsFile = true) ∧
    (lfbuild_build compileFailWorld compileFailWorld.fs).err =
      some (.compileFailed ("LFC compilation failed:\n" ++ "boom")) ∧
    lfbuild_main compileFailWorld .build =
      ⟨1, [lfcCmd compileFailWorld], []⟩ ∧
    saclay_main saclayFailWorld =
      ⟨1, [⟨"lfc-dev", ["src/Echo.lf"]⟩], [], ["clean", "compile"]⟩ :=
  ⟨⟨by decide, by decide, by decide, by decide⟩,
    (compile_failure_halts compileFailWorld saclayFailWorld
      (by decide) (by decide) (by decide) (by decide)).1,
    (compile_failure_halts compileFailWorld saclayFailWorld
      (by decide) (by decide) (by decide) (by decide)).2.2.2.1,
    (compile_failure_halts compileFailWorld saclayFailWorld
      (by decide) (by decide) (by decide) (by decide)).2.2.2.2.2.1⟩

/-! ## Staging-name claims -/

/-- The generated tree the compiler produces for `Echo.lf`:
`src-gen/Echo/{EchoClient, EchoServer}/build/zephyr/zephyr.elf`. -/
def echoGenFs : List FsNode :=
  [⟨["src-gen"], true⟩, ⟨["src-gen", "Echo"], true⟩,
   ⟨["src-gen", "Echo", "EchoClient"], true⟩,
   ⟨["src-gen", "Echo", "EchoClient", "build"], true⟩,
   ⟨["src-gen", "Echo", "EchoClient", "build", "zephyr"], true⟩,
   ⟨["src-gen", "Echo", "EchoClient", "build", "zephyr", "zephyr.elf"],
     false⟩,
   ⟨["src-gen", "Echo", "EchoServer"], true⟩,
   ⟨["src-gen", "Echo", "EchoServer", "build"], true⟩,
   ⟨["src-gen", "Echo", "EchoServer", "build", "zephyr"], true⟩,
   ⟨["src-gen", "Echo", "EchoServer", "build", "zephyr", "zephyr.elf"],
     false⟩]

/-- A successful `LFBuilder` world for `Echo.lf` over an empty starting
filesystem. -/
def echoWorld : LFWorld :=
  ⟨"src/Echo.lf", ".lf", true, true, "Echo", "hailo@hailo-desktop:~/lf",
    false, 0, "", echoGenFs, []⟩

example :
    saclay_main ⟨"src/Echo.lf", "Echo", "zungel@saclay.iot-lab.info:",
      true, 0, "",
      [⟨["src-gen"], true⟩, ⟨["src-gen", "Echo"], true⟩], []⟩ =
    ⟨1, [⟨"lfc-dev", ["src/Echo.lf"]⟩],
      [⟨["src-gen"], true⟩, ⟨["src-gen", "Echo"], true⟩],
      ["clean", "compile", "discover"]⟩ := by decide

/-- C7 (counterexample): a successful `LFBuilder` run on `Echo.lf` stages
`EchoClient.elf` and `EchoServer.elf` — the federate names — and stages
nothing named `echo_client.elf` or `echo_server.elf`. -/
theorem stage_names_claim_cx :
    (lfbuild_build echoWorld []).err = none ∧
    (⟨["Echo_build", "EchoClient.elf"], false⟩ : FsNode) ∈
      (lfbuild_build echoWorld []).fs ∧
    (⟨["Echo_build", "EchoServer.elf"], false⟩ : FsNode) ∈
      (lfbuild_build echoWorld []).fs ∧
    (∀ n ∈ (lfbuild_build echoWorld []).fs,
      n.path ≠ ["Echo_build", "echo_client.elf"] ∧
      n.path ≠ ["Echo_build", "echo_server.elf"]) :=
  ⟨by decide, by decide, by decide, by decide⟩

/-- C7 (amended): `stage_binaries` of `build-saclay.py` stages the two
resolved binaries at the fixed role-qualified names `echo_client.elf` and
`echo_server.elf`, overwrites whatever was previously staged under those
names, leaves every other staged file unchanged, and is idempotent within
a run.  The `LFBuilder` variant instead stages under federate-qualified
names: every node a successful `build` adds beyond the compiler output
has a path of the shape `<base>_build/<federateName>.elf`. -/
theorem staging_spec {β : Type} (c s : β) (d : String → Option β) :
    stage_binaries c s d "echo_client.elf" = some c ∧
    stage_binaries c s d "echo_server.elf" = some s ∧
    (∀ n, n ≠ "echo_client.elf" → n ≠ "echo_server.elf" →
      stage_binaries c s d n = d n) ∧
    stage_binaries c s (stage_binaries c s d) = stage_binaries c s d ∧
    (∀ (w : LFWorld) (fs : List FsNode),
      (lfbuild_build w fs).err = none →
      ∀ n ∈ (lfbuild_build w fs).fs,
        n ∈ mkdirNode (fs ++ w.generated) [w.baseName ++ "_build"] ∨
        ∃ fedName, n.path = [w.baseName ++ "_build", fedName ++ ".elf"]) := by
  refine ⟨?_, ?_, ?_, ?_, ?_⟩
  · simp [stage_binaries, writeFile]
  · simp [stage_binaries, writeFile]
  · intro n h1 h2
    simp [stage_binaries, writeFile, h1, h2]
  · funext n
    by_cases h1 : n = "echo_server.elf" <;>
      by_cases h2 : n = "echo_client.elf" <;>
        simp [stage_binaries, writeFile, h1, h2]
  · intro w fs herr n hn
    by_cases hx : w.lfcExitCode = 0
    · rcases hfind : find_federate_elfs w.baseName
          (mkdirNode (fs ++ w.generated) [w.baseName ++ "_build"])
        with e | elfs
      · rw [lfbuild_build_find_err w fs e hx hfind] at herr
        simp at herr
      · rw [lfbuild_build_ok w fs elfs hx hfind] at hn
        exact copy_fold_paths _ elfs _ n hn
    · rw [lfbuild_build_compile_fail w fs hx] at herr
      simp at herr

/-- C7 (witness): the staging theorem evaluated on a concrete staging
directory (contents stand in as numbers). -/
theorem staging_spec_witness :
    stage_binaries 1 2 (fun _ => (none : Option Nat)) "echo_client.elf" =
      some 1 ∧
    stage_binaries 1 2 (fun _ => (none : Option Nat)) "echo_server.elf" =
      some 2 ∧
    (("other.txt" : String) ≠ "echo_client.elf" ∧
     ("other.txt" : String) ≠ "echo_server.elf") ∧
    stage_binaries 1 2 (fun _ => (none : Option Nat)) "other.txt" = none ∧
    stage_binaries 1 2 (stage_binaries 1 2 (fun _ => (none : Option Nat))) =
      stage_binaries 1 2 (fun _ => (none : Option Nat)) :=
  ⟨(staging_spec 1 2 (fun _ => none)).1,
   (staging_spec 1 2 (fun _ => none)).2.1,
   ⟨by decide, by decide⟩,
   (staging_spec 1 2 (fun _ => none)).2.2.1 "other.txt"
     (by decide) (by decide),
   (staging_spec 1 2 (fun _ => none)).2.2.2.1⟩

/-! ## Federate-count counterexample (`lf-build.py` side of C3) -/

/-- A generated tree with three federate candidates `fed0`, `fed1`,
`fed2`, each holding a binary at the conventional depth. -/
def threeFedFs : List FsNode :=
  [⟨["src-gen"], true⟩, ⟨["src-gen", "Tri"], true⟩,
   ⟨["src-gen", "Tri", "fed0"], true⟩,
   ⟨["src-gen", "Tri", "fed0", "build"], true⟩,
   ⟨["src-gen", "Tri", "fed0", "build", "zephyr"], true⟩,
   ⟨["src-gen", "Tri", "fed0", "build", "zephyr", "zephyr.elf"], false⟩,
   ⟨["src-gen", "Tri", "fed1"], true⟩,
   ⟨["src-gen", "Tri", "fed1", "build"], true⟩,
   ⟨["src-gen", "Tri", "fed1", "build", "zephyr"], true⟩,
   ⟨["src-gen", "Tri", "fed1", "build", "zephyr", "zephyr.elf"], false⟩,
   ⟨["src-gen", "Tri", "fed2"], true⟩,
   ⟨["src-gen", "Tri", "fed2", "build"], true⟩,
   ⟨["src-gen", "Tri", "fed2", "build", "zephyr"], true⟩,
   ⟨["src-gen", "Tri", "fed2", "build", "zephyr", "zephyr.elf"], false⟩]

/-- C3 (counterexample): the `LFBuilder` discovery raises no
federate-count error on a generated root with three candidate
subdirectories — it returns all three federates. -/
theorem federate_count_claim_cx :
    ((childrenOf threeFedFs ["src-gen", "Tri"]).filter
      (fun n => n.isDir)).length = 3 ∧
    find_federate_elfs "Tri" threeFedFs =
      .ok [("fed0",
             ["src-gen", "Tri", "fed0", "build", "zephyr", "zephyr.elf"]),
           ("fed1",
             ["src-gen", "Tri", "fed1", "build", "zephyr", "zephyr.elf"]),
           ("fed2",
             ["src-gen", "Tri", "fed2", "build", "zephyr", "zephyr.elf"])] :=
  ⟨by decide, by decide⟩

end LFDeploy
